import Mathlib

/-!
# NIS/YP protocol declarations and the SEND hook declarations

Shallow embedding of the two C headers

* `lib/libc/include/generic-netbsd/rpcsvc/yp_prot.h`
* `lib/libc/include/generic-freebsd/netinet6/send.h`

Object-like macros become Lean constants.  A cast `((unsigned int)e)` or
`((unsigned long)e)` is the C conversion to an unsigned type: the value of `e`
reduced modulo `2 ^ width`.  `unsigned int` is 32 bits wide; `unsigned long` is
32 or 64 bits wide depending on the data model, so every macro with an
`unsigned long` cast takes the data model as an argument.
-/

namespace YpProt

/-! ## Integer conversions -/

/-- Data models of the targets the header is compiled for: `int` has 32 bits in
both, `long` has 32 bits under ILP32 and 64 bits under LP64. -/
inductive DataModel where
  | ilp32
  | lp64
  deriving DecidableEq, Repr

/-- Width in bits of `unsigned int`. -/
def UINT_BITS : Nat := 32

/-- Width in bits of `unsigned long` under a data model. -/
def ULONG_BITS : DataModel → Nat
  | .ilp32 => 32
  | .lp64 => 64

/-- Conversion of an integer value to an unsigned type of `bits` bits: the
unique value in `0 .. 2 ^ bits - 1` congruent to it modulo `2 ^ bits`. -/
def to_unsigned (bits : Nat) (x : Int) : Nat :=
  (x % ((2 ^ bits : Nat) : Int)).toNat

/-- The cast `(unsigned int)x`. -/
def cast_unsigned_int (x : Int) : Nat := to_unsigned UINT_BITS x

/-- The cast `(unsigned long)x`. -/
def cast_unsigned_long (m : DataModel) (x : Int) : Nat := to_unsigned (ULONG_BITS m) x

/-- Two-complement reading of a 32-bit unsigned value as a signed 32-bit
integer: values below `2 ^ 31` read as themselves, the others as the value minus
`2 ^ 32`. -/
def signed_reading (u : Nat) : Int :=
  if u < 2 ^ 31 then (u : Int) else (u : Int) - ((2 ^ 32 : Nat) : Int)

/-! ## Program and version symbols, magic numbers (yp_prot.h lines 69-84) -/

def YPPROG (m : DataModel) : Nat := cast_unsigned_long m 100004
def YPVERS (m : DataModel) : Nat := cast_unsigned_long m 2
def YPVERS_ORIG (m : DataModel) : Nat := cast_unsigned_long m 1

def YPMAXRECORD : Int := 1024
def YPMAXDOMAIN : Int := 64
def YPMAXMAP : Int := 64
def YPMAXPEER : Int := 256

def YPMSGSZ : Int := 1600

/-! ## ypserv procedure numbers (yp_prot.h lines 154-166) -/

def YPPROC_NULL (m : DataModel) : Nat := cast_unsigned_long m 0
def YPPROC_DOMAIN (m : DataModel) : Nat := cast_unsigned_long m 1
def YPPROC_DOMAIN_NONACK (m : DataModel) : Nat := cast_unsigned_long m 2
def YPPROC_MATCH (m : DataModel) : Nat := cast_unsigned_long m 3
def YPPROC_FIRST (m : DataModel) : Nat := cast_unsigned_long m 4
def YPPROC_NEXT (m : DataModel) : Nat := cast_unsigned_long m 5
def YPPROC_XFR (m : DataModel) : Nat := cast_unsigned_long m 6
def YPPROC_CLEAR (m : DataModel) : Nat := cast_unsigned_long m 7
def YPPROC_ALL (m : DataModel) : Nat := cast_unsigned_long m 8
def YPPROC_MASTER (m : DataModel) : Nat := cast_unsigned_long m 9
def YPPROC_ORDER (m : DataModel) : Nat := cast_unsigned_long m 10
def YPPROC_MAPLIST (m : DataModel) : Nat := cast_unsigned_long m 11

/-- The twelve `YPPROC_*` macros, in the order the header defines them. -/
def ypserv_procedures (m : DataModel) : List Nat :=
  [YPPROC_NULL m, YPPROC_DOMAIN m, YPPROC_DOMAIN_NONACK m, YPPROC_MATCH m,
   YPPROC_FIRST m, YPPROC_NEXT m, YPPROC_XFR m, YPPROC_CLEAR m,
   YPPROC_ALL m, YPPROC_MASTER m, YPPROC_ORDER m, YPPROC_MAPLIST m]

/-! ## ypserv procedure return status values (yp_prot.h lines 168-179) -/

def YP_TRUE : Nat := cast_unsigned_int 1
def YP_NOMORE : Nat := cast_unsigned_int 2
def YP_FALSE : Nat := cast_unsigned_int 0
def YP_NOMAP : Nat := cast_unsigned_int (-1)
def YP_NODOM : Nat := cast_unsigned_int (-2)
def YP_NOKEY : Nat := cast_unsigned_int (-3)
def YP_BADOP : Nat := cast_unsigned_int (-4)
def YP_BADDB : Nat := cast_unsigned_int (-5)
def YP_YPERR : Nat := cast_unsigned_int (-6)
def YP_BADARGS : Nat := cast_unsigned_int (-7)
def YP_VERS : Nat := cast_unsigned_int (-8)

/-- The eight error codes `YP_NOMAP .. YP_VERS`, in the order the header
defines them. -/
def yp_error_codes : List Nat :=
  [YP_NOMAP, YP_NODOM, YP_NOKEY, YP_BADOP, YP_BADDB, YP_YPERR, YP_BADARGS, YP_VERS]

/-- All eleven `YP_*` status macros, in the order the header defines them. -/
def yp_status_values : List Nat :=
  [YP_TRUE, YP_NOMORE, YP_FALSE] ++ yp_error_codes

/-- Status values carried by the `unsigned int status` field of the ypserv
response structures `ypresp_val`, `ypresp_key_val`, `ypresp_master`,
`ypresp_order` and `ypresp_maplist`: the field holds a 32-bit unsigned value. -/
def status_in_range (s : Nat) : Bool := decide (s < 2 ^ UINT_BITS)

/-! ## Fixed-size name buffers (yp_prot.h lines 144-147, 193-202, 255-259) -/

/-- Array bound of `char ypml_name[YPMAXMAP + 1]` in `struct ypmaplist`. -/
def sizeof_ypml_name : Int := YPMAXMAP + 1

/-- Array bound of `char dom_domain[YPMAXDOMAIN + 1]` in `struct dom_binding`. -/
def sizeof_dom_domain : Int := YPMAXDOMAIN + 1

/-- Array bound of `char ypsetdom_domain[YPMAXDOMAIN + 1]` in
`struct ypbind_setdom`. -/
def sizeof_ypsetdom_domain : Int := YPMAXDOMAIN + 1

/-- Bytes occupied by a NUL-terminated name of length `n`: its `n` bytes and the
terminator. -/
def nul_terminated_size (n : Nat) : Int := (n : Int) + 1

/-- A NUL-terminated name of length `n` stored from the start of a buffer of
`cap` bytes stays inside the buffer. -/
def name_fits (cap : Int) (n : Nat) : Bool := decide (nul_terminated_size n ≤ cap)

/-! ## ypbind (yp_prot.h lines 218-261) -/

def YPBINDPROG (m : DataModel) : Nat := cast_unsigned_long m 100007
def YPBINDVERS (m : DataModel) : Nat := cast_unsigned_long m 2
def YPBINDVERS_ORIG (m : DataModel) : Nat := cast_unsigned_long m 1

def YPBINDPROC_NULL (m : DataModel) : Nat := cast_unsigned_long m 0
def YPBINDPROC_DOMAIN (m : DataModel) : Nat := cast_unsigned_long m 1
def YPBINDPROC_SETDOM (m : DataModel) : Nat := cast_unsigned_long m 2

/-- Enumerator `YPBIND_SUCC_VAL = 1` of `enum ypbind_resptype`. -/
def YPBIND_SUCC_VAL : Int := 1

/-- Enumerator `YPBIND_FAIL_VAL = 2` of `enum ypbind_resptype`. -/
def YPBIND_FAIL_VAL : Int := 2

/-- The enumerators of `enum ypbind_resptype`, in declaration order. -/
def ypbind_resptype_values : List Int := [YPBIND_SUCC_VAL, YPBIND_FAIL_VAL]

/-- The record `struct ypbind_binding`: an IPv4 address and a port, both in
network order. -/
structure ypbind_binding where
  ypbind_binding_addr : Nat
  ypbind_binding_port : Nat
  deriving DecidableEq, Repr

/-- The anonymous union `ypbind_respbody` of `struct ypbind_resp`: it holds a
value of one of its two members. -/
inductive ypbind_respbody where
  | ypbind_error (e : Nat)
  | ypbind_bindinfo (b : ypbind_binding)
  deriving DecidableEq, Repr

/-- The record `struct ypbind_resp`: the discriminant and the union. -/
structure ypbind_resp where
  ypbind_status : Int
  ypbind_respbody : ypbind_respbody
  deriving DecidableEq, Repr

/-- The two members of the union `ypbind_respbody`. -/
inductive ypbind_arm where
  | ypbind_error
  | ypbind_bindinfo
  deriving DecidableEq, Repr

/-- Modelled from the spec: the member of `ypbind_respbody` that a value of
`ypbind_status` selects.  The header declares the discriminant and the union;
the selection is made by `xdr_ypbind_resp`, which the header only declares.  The
spec: "on success carries a binding, on failure carries an error code". -/
def ypbind_selected_arm (status : Int) : Option ypbind_arm :=
  if status = YPBIND_SUCC_VAL then some ypbind_arm.ypbind_bindinfo
  else if status = YPBIND_FAIL_VAL then some ypbind_arm.ypbind_error
  else none

def YPBIND_ERR_ERR : Int := 1
def YPBIND_ERR_NOSERV : Int := 2
def YPBIND_ERR_RESC : Int := 3

/-- The three `YPBIND_ERR_*` macros, in the order the header defines them. -/
def ypbind_error_codes : List Int := [YPBIND_ERR_ERR, YPBIND_ERR_NOSERV, YPBIND_ERR_RESC]

/-! ## yppush (yp_prot.h lines 275-303) -/

def YPPUSHVERS (m : DataModel) : Nat := cast_unsigned_long m 1
def YPPUSHVERS_ORIG (m : DataModel) : Nat := cast_unsigned_long m 1

def YPPUSHPROC_NULL (m : DataModel) : Nat := cast_unsigned_long m 0
def YPPUSHPROC_XFRRESP (m : DataModel) : Nat := cast_unsigned_long m 1

/-- The record `struct yppushresp_xfr`: both fields are `unsigned int`. -/
structure yppushresp_xfr where
  transid : Nat
  status : Nat
  deriving DecidableEq, Repr

def YPPUSH_SUCC : Nat := cast_unsigned_int 1
def YPPUSH_AGE : Nat := cast_unsigned_int 2
def YPPUSH_NOMAP : Nat := cast_unsigned_int (-1)
def YPPUSH_NODOM : Nat := cast_unsigned_int (-2)
def YPPUSH_RSRC : Nat := cast_unsigned_int (-3)
def YPPUSH_RPC : Nat := cast_unsigned_int (-4)
def YPPUSH_MADDR : Nat := cast_unsigned_int (-5)
def YPPUSH_YPERR : Nat := cast_unsigned_int (-6)
def YPPUSH_BADARGS : Nat := cast_unsigned_int (-7)
def YPPUSH_DBM : Nat := cast_unsigned_int (-8)
def YPPUSH_FILE : Nat := cast_unsigned_int (-9)
def YPPUSH_SKEW : Nat := cast_unsigned_int (-10)
def YPPUSH_CLEAR : Nat := cast_unsigned_int (-11)
def YPPUSH_FORCE : Nat := cast_unsigned_int (-12)
def YPPUSH_XFRERR : Nat := cast_unsigned_int (-13)
def YPPUSH_REFUSED : Nat := cast_unsigned_int (-14)

/-- The `YPPUSH_*` macros defined with a negative operand, `YPPUSH_NOMAP ..
YPPUSH_REFUSED`, in the order the header defines them. -/
def yppush_error_codes : List Nat :=
  [YPPUSH_NOMAP, YPPUSH_NODOM, YPPUSH_RSRC, YPPUSH_RPC, YPPUSH_MADDR, YPPUSH_YPERR,
   YPPUSH_BADARGS, YPPUSH_DBM, YPPUSH_FILE, YPPUSH_SKEW, YPPUSH_CLEAR, YPPUSH_FORCE,
   YPPUSH_XFRERR, YPPUSH_REFUSED]

/-- All `YPPUSH_*` status macros, in the order the header defines them. -/
def yppush_status_values : List Nat :=
  [YPPUSH_SUCC, YPPUSH_AGE] ++ yppush_error_codes

end YpProt

namespace NetSend

/-! ## SEND hook declarations (send.h lines 32-43) -/

def SND_OUT : Int := 0
def SND_IN : Int := 1

/-- The direction macros, in the order the header defines them. -/
def snd_directions : List Int := [SND_OUT, SND_IN]

/-- The record `struct sockaddr_send`. -/
structure sockaddr_send where
  send_len : Nat
  send_family : Nat
  send_direction : Int
  send_ifidx : Int
  send_zero : List Nat
  deriving DecidableEq, Repr

end NetSend

/-! ## Properties of the ypserv, ypbind and yppush declarations -/

namespace YpProt

/-- An in-range integer is unchanged by the conversion to an unsigned type. -/
theorem to_unsigned_of_lt (bits : Nat) (x : Nat) (h : x < 2 ^ bits) :
    to_unsigned bits (x : Int) = x := by
  unfold to_unsigned
  rw [Int.emod_eq_of_lt (Int.natCast_nonneg x) (by exact_mod_cast h)]
  exact Int.toNat_natCast x

/-- Claim C1: the twelve ypserv procedure macros have the numbers of the
procedure table (NULL 0, DOMAIN 1, DOMAIN_NONACK 2, MATCH 3, FIRST 4, NEXT 5,
XFR 6, CLEAR 7, ALL 8, MASTER 9, ORDER 10, MAPLIST 11) under either data model,
and the map from the twelve macros to numbers is a bijection onto 0..11: the
list of their values has twelve entries, no value twice, and a number is one of
them exactly when it is below 12. -/
theorem ypproc_numbers_bijection (m : DataModel) :
    (YPPROC_NULL m = 0 ∧ YPPROC_DOMAIN m = 1 ∧ YPPROC_DOMAIN_NONACK m = 2 ∧
      YPPROC_MATCH m = 3 ∧ YPPROC_FIRST m = 4 ∧ YPPROC_NEXT m = 5 ∧
      YPPROC_XFR m = 6 ∧ YPPROC_CLEAR m = 7 ∧ YPPROC_ALL m = 8 ∧
      YPPROC_MASTER m = 9 ∧ YPPROC_ORDER m = 10 ∧ YPPROC_MAPLIST m = 11) ∧
    (ypserv_procedures m).length = 12 ∧
    (ypserv_procedures m).Nodup ∧
    (∀ n : Nat, n ∈ ypserv_procedures m ↔ n < 12) := by
  have hlist : ypserv_procedures m = List.range 12 := by
    cases m <;> decide
  refine ⟨?_, ?_, ?_, ?_⟩
  · cases m <;> decide
  · rw [hlist]; rfl
  · rw [hlist]; exact List.nodup_range 12
  · intro n
    rw [hlist]
    exact List.mem_range

/-- Claim C3: the numeric limits of the protocol are YPMAXRECORD = 1024,
YPMAXDOMAIN = 64, YPMAXMAP = 64 and YPMAXPEER = 256. -/
theorem yp_numeric_limits :
    YPMAXRECORD = 1024 ∧ YPMAXDOMAIN = 64 ∧ YPMAXMAP = 64 ∧ YPMAXPEER = 256 :=
  ⟨rfl, rfl, rfl, rfl⟩

/-- Claim C4: under either data model YPPROG = 100004, YPVERS = 2,
YPVERS_ORIG = 1, YPBINDPROG = 100007, YPBINDVERS = 2 and YPPUSHVERS = 1; the
ypserv and ypbind program numbers differ, and each current version is at least
its original version. -/
theorem yp_program_and_version_numbers (m : DataModel) :
    YPPROG m = 100004 ∧ YPVERS m = 2 ∧ YPVERS_ORIG m = 1 ∧
    YPBINDPROG m = 100007 ∧ YPBINDVERS m = 2 ∧ YPPUSHVERS m = 1 ∧
    YPPROG m ≠ YPBINDPROG m ∧
    YPVERS_ORIG m ≤ YPVERS m ∧ YPBINDVERS_ORIG m ≤ YPBINDVERS m ∧
    YPPUSHVERS_ORIG m ≤ YPPUSHVERS m := by
  cases m <;> decide

/-- Claim C2, as stated, fails: YP_NOMAP is one of the eight error codes and
its value, 4294967295, is not below 0; so it is not true that every defined
status is an error code exactly when its value is below 0. -/
theorem yp_nomap_value_not_negative :
    YP_NOMAP ∈ yp_error_codes ∧ YP_NOMAP = 4294967295 ∧ ¬ ((YP_NOMAP : Int) < 0) ∧
    ¬ (∀ s ∈ yp_status_values, (s ∈ yp_error_codes ↔ (s : Int) < 0)) := by
  refine ⟨by decide, by decide, by decide, ?_⟩
  intro h
  have h1 : ((YP_NOMAP : Nat) : Int) < 0 := (h YP_NOMAP (by decide)).mp (by decide)
  exact absurd h1 (by decide)

/-- Claim C2, amended: the ypserv status code is an unsigned 32-bit code with
YP_TRUE = 1 and YP_NOMORE = 2; the eight error codes are defined statuses, and
every defined status s is below 2^32 and is an error code if and only if its
signed 32-bit reading is below 0, which is the case if and only if s is at
least 2^31. -/
theorem yp_status_error_iff_signed_negative (s : Nat) (hs : s ∈ yp_status_values) :
    YP_TRUE = 1 ∧ YP_NOMORE = 2 ∧
    yp_error_codes.length = 8 ∧ yp_error_codes ⊆ yp_status_values ∧
    status_in_range s = true ∧
    (s ∈ yp_error_codes ↔ signed_reading s < 0) ∧
    (s ∈ yp_error_codes ↔ 2 ^ 31 ≤ s) := by
  have hall : ∀ t ∈ yp_status_values,
      status_in_range t = true ∧ (t ∈ yp_error_codes ↔ signed_reading t < 0) ∧
      (t ∈ yp_error_codes ↔ 2 ^ 31 ≤ t) := by decide
  obtain ⟨h1, h2, h3⟩ := hall s hs
  refine ⟨by decide, by decide, by decide, ?_, h1, h2, h3⟩
  intro e he
  exact List.mem_append_right _ he

/-- Witness for claim C2, amended, at the status YP_BADDB. -/
theorem yp_status_error_iff_signed_negative_witness :
    YP_BADDB ∈ yp_status_values ∧
    (YP_BADDB ∈ yp_error_codes ↔ signed_reading YP_BADDB < 0) :=
  ⟨by decide, (yp_status_error_iff_signed_negative YP_BADDB (by decide)).2.2.2.2.2.1⟩

/-- Claim C9: the ypserv status macros are 32-bit unsigned values.  For k in
1..8 the k-th error code is the conversion of 0 - k to unsigned int, equals
2^32 - k, reads as -k as a signed 32-bit integer and is above YP_NOMORE in the
unsigned order; YP_FALSE = 0, YP_TRUE = 1, YP_NOMORE = 2, and the eleven status
macros are pairwise distinct. -/
theorem yp_status_unsigned_values (k : Nat) (h1 : 1 ≤ k) (h8 : k ≤ 8) :
    (∃ c : Nat, yp_error_codes[k - 1]? = some c ∧
      c = cast_unsigned_int (0 - (k : Int)) ∧ c = 2 ^ 32 - k ∧
      signed_reading c = - (k : Int) ∧ YP_NOMORE < c) ∧
    YP_FALSE = 0 ∧ YP_TRUE = 1 ∧ YP_NOMORE = 2 ∧
    yp_status_values.length = 11 ∧ yp_status_values.Nodup := by
  refine ⟨?_, by decide, by decide, by decide, by decide, by decide⟩
  interval_cases k
  · exact ⟨YP_NOMAP, by decide, by decide, by decide, by decide, by decide⟩
  · exact ⟨YP_NODOM, by decide, by decide, by decide, by decide, by decide⟩
  · exact ⟨YP_NOKEY, by decide, by decide, by decide, by decide, by decide⟩
  · exact ⟨YP_BADOP, by decide, by decide, by decide, by decide, by decide⟩
  · exact ⟨YP_BADDB, by decide, by decide, by decide, by decide, by decide⟩
  · exact ⟨YP_YPERR, by decide, by decide, by decide, by decide, by decide⟩
  · exact ⟨YP_BADARGS, by decide, by decide, by decide, by decide, by decide⟩
  · exact ⟨YP_VERS, by decide, by decide, by decide, by decide, by decide⟩

/-- Witness for claim C9 at k = 8, the error code YP_VERS. -/
theorem yp_status_unsigned_values_witness :
    ∃ c : Nat, yp_error_codes[8 - 1]? = some c ∧
      c = cast_unsigned_int (0 - ((8 : Nat) : Int)) ∧ c = 2 ^ 32 - 8 ∧
      signed_reading c = - ((8 : Nat) : Int) ∧ YP_NOMORE < c :=
  (yp_status_unsigned_values 8 (by decide) (by decide)).1

/-- Claim C5: the discriminant of ypbind_resp has exactly two enumerators,
YPBIND_SUCC_VAL = 1 and YPBIND_FAIL_VAL = 2, which are distinct; a ypbind_resp
whose discriminant is one of them selects exactly one member of the union, the
binding on success and the error code on failure; and the error codes
YPBIND_ERR_ERR, YPBIND_ERR_NOSERV, YPBIND_ERR_RESC are 1, 2, 3, pairwise
distinct. -/
theorem ypbind_resp_tagged_union (r : ypbind_resp)
    (hdef : r.ypbind_status ∈ ypbind_resptype_values) :
    (YPBIND_SUCC_VAL = 1 ∧ YPBIND_FAIL_VAL = 2 ∧ YPBIND_SUCC_VAL ≠ YPBIND_FAIL_VAL ∧
      ypbind_resptype_values.length = 2) ∧
    (∃! a : ypbind_arm, ypbind_selected_arm r.ypbind_status = some a) ∧
    (r.ypbind_status = YPBIND_SUCC_VAL →
      ypbind_selected_arm r.ypbind_status = some ypbind_arm.ypbind_bindinfo) ∧
    (r.ypbind_status = YPBIND_FAIL_VAL →
      ypbind_selected_arm r.ypbind_status = some ypbind_arm.ypbind_error) ∧
    (YPBIND_ERR_ERR = 1 ∧ YPBIND_ERR_NOSERV = 2 ∧ YPBIND_ERR_RESC = 3 ∧
      ypbind_error_codes.Nodup) := by
  have hcases : r.ypbind_status = YPBIND_SUCC_VAL ∨ r.ypbind_status = YPBIND_FAIL_VAL := by
    simpa [ypbind_resptype_values] using hdef
  refine ⟨by decide, ?_, ?_, ?_, by decide⟩
  · rcases hcases with h | h
    · rw [h]
      exact ⟨ypbind_arm.ypbind_bindinfo, by decide, fun a ha => by
        have hb : ypbind_selected_arm YPBIND_SUCC_VAL = some ypbind_arm.ypbind_bindinfo := by
          decide
        rw [hb] at ha
        exact (Option.some.inj ha).symm⟩
    · rw [h]
      exact ⟨ypbind_arm.ypbind_error, by decide, fun a ha => by
        have hb : ypbind_selected_arm YPBIND_FAIL_VAL = some ypbind_arm.ypbind_error := by
          decide
        rw [hb] at ha
        exact (Option.some.inj ha).symm⟩
  · intro h
    rw [h]
    decide
  · intro h
    rw [h]
    decide

/-- Witness for claim C5 at a failure response carrying YPBIND_ERR_NOSERV. -/
theorem ypbind_resp_tagged_union_witness :
    (⟨YPBIND_FAIL_VAL, ypbind_respbody.ypbind_error 2⟩ : ypbind_resp).ypbind_status
        ∈ ypbind_resptype_values ∧
    ypbind_selected_arm
        (⟨YPBIND_FAIL_VAL, ypbind_respbody.ypbind_error 2⟩ : ypbind_resp).ypbind_status
      = some ypbind_arm.ypbind_error :=
  ⟨by decide,
   (ypbind_resp_tagged_union ⟨YPBIND_FAIL_VAL, ypbind_respbody.ypbind_error 2⟩
      (by decide)).2.2.2.1 rfl⟩

/-- Claim C6, as stated, fails: the header defines sixteen pairwise distinct
YPPUSH status macros, so the set of defined status constants does not have 14
members. -/
theorem yppush_status_count_not_fourteen :
    yppush_status_values.length = 16 ∧ yppush_status_values.Nodup ∧
    ¬ (yppush_status_values.toFinset.card = 14) := by
  refine ⟨by decide, by decide, by decide⟩

/-- Claim C6, amended: the status of the XFRRESP notification is drawn from
sixteen pairwise distinct defined values: YPPUSH_SUCC = 1, YPPUSH_AGE = 2 and
fourteen pairwise distinct error codes, each the conversion of a negative
number to unsigned int and so at least 2^31. -/
theorem yppush_status_vocabulary :
    yppush_status_values.toFinset.card = 16 ∧ yppush_status_values.Nodup ∧
    yppush_status_values = [YPPUSH_SUCC, YPPUSH_AGE] ++ yppush_error_codes ∧
    YPPUSH_SUCC = 1 ∧ YPPUSH_AGE = 2 ∧
    yppush_error_codes.length = 14 ∧ yppush_error_codes.Nodup ∧
    yppush_error_codes.toFinset.card = 14 ∧
    yppush_error_codes.all (fun c => decide (2 ^ 31 ≤ c ∧ signed_reading c < 0)) = true := by
  refine ⟨by decide, by decide, rfl, by decide, by decide, by decide, by decide, by decide,
    by decide⟩

/-- Claim C7: every fixed-size name buffer has its maximum name length plus one
bytes: ypml_name has YPMAXMAP + 1 = 65 bytes, dom_domain and ypsetdom_domain
have YPMAXDOMAIN + 1 = 65 bytes; so a name of length n together with its
terminating NUL stays inside each buffer if and only if n is at most 64. -/
theorem name_buffers_hold_max_length (n : Nat) :
    (sizeof_ypml_name = YPMAXMAP + 1 ∧ sizeof_ypml_name = 65) ∧
    (sizeof_dom_domain = YPMAXDOMAIN + 1 ∧ sizeof_dom_domain = 65) ∧
    (sizeof_ypsetdom_domain = YPMAXDOMAIN + 1 ∧ sizeof_ypsetdom_domain = 65) ∧
    (name_fits sizeof_ypml_name n = true ↔ n ≤ 64) ∧
    (name_fits sizeof_dom_domain n = true ↔ n ≤ 64) ∧
    (name_fits sizeof_ypsetdom_domain n = true ↔ n ≤ 64) := by
  have key : ∀ cap : Int, cap = 65 → (name_fits cap n = true ↔ n ≤ 64) := by
    intro cap hcap
    unfold name_fits nul_terminated_size
    rw [decide_eq_true_iff, hcap]
    omega
  exact ⟨⟨rfl, by decide⟩, ⟨rfl, by decide⟩, ⟨rfl, by decide⟩,
    key _ (by decide), key _ (by decide), key _ (by decide)⟩

/-- Claim C10: the yppush and ypserv status macros agree where they share a
meaning: YPPUSH_SUCC = YP_TRUE = 1, YPPUSH_NOMAP = YP_NOMAP,
YPPUSH_NODOM = YP_NODOM, YPPUSH_YPERR = YP_YPERR, YPPUSH_BADARGS = YP_BADARGS;
and for k in 1..14 the k-th yppush error code, the conversion of -k to unsigned
int, equals 2^32 - k. -/
theorem yppush_agrees_with_ypserv (k : Nat) (h1 : 1 ≤ k) (h14 : k ≤ 14) :
    (YPPUSH_SUCC = YP_TRUE ∧ YP_TRUE = 1 ∧ YPPUSH_NOMAP = YP_NOMAP ∧
      YPPUSH_NODOM = YP_NODOM ∧ YPPUSH_YPERR = YP_YPERR ∧
      YPPUSH_BADARGS = YP_BADARGS) ∧
    yppush_error_codes[k - 1]? = some (cast_unsigned_int (- (k : Int))) ∧
    cast_unsigned_int (- (k : Int)) = 2 ^ 32 - k := by
  refine ⟨by decide, ?_⟩
  interval_cases k <;> exact ⟨by decide, by decide⟩

/-- Witness for claim C10 at k = 10, the error code YPPUSH_SKEW. -/
theorem yppush_agrees_with_ypserv_witness :
    yppush_error_codes[10 - 1]? = some YPPUSH_SKEW ∧ YPPUSH_SKEW = 2 ^ 32 - 10 :=
  ⟨(yppush_agrees_with_ypserv 10 (by decide) (by decide)).2.1,
   (yppush_agrees_with_ypserv 10 (by decide) (by decide)).2.2⟩

end YpProt

namespace NetSend

/-- Claim C8: the direction flag of the SEND tag has exactly two defined
values, SND_OUT = 0 and SND_IN = 1, which are distinct, and sockaddr_send
carries a direction together with an interface index. -/
theorem send_direction_values (len fam : Nat) (dir ifidx : Int) (zero : List Nat) :
    SND_OUT = 0 ∧ SND_IN = 1 ∧ SND_OUT ≠ SND_IN ∧
    snd_directions = [0, 1] ∧ snd_directions.length = 2 ∧ snd_directions.Nodup ∧
    (sockaddr_send.mk len fam dir ifidx zero).send_direction = dir ∧
    (sockaddr_send.mk len fam dir ifidx zero).send_ifidx = ifidx := by
  refine ⟨rfl, rfl, by decide, rfl, rfl, by decide, rfl, rfl⟩

end NetSend
